import Mathlib

/-!
The clock-chip wrapper `xrfdc_clk_wrapper.c` of the xrfclk package.

Shallow embedding of `ZCU111/packages/xrfclk/pkg/src/xrfdc_clk_wrapper.c`.

The four C functions only talk to the outside world: the vendor routines
declared in `xrfdc_clk.h` and the system calls `open`, `ioctl`, `close` and
`printf`.  None of these is part of the file, so they are fields of an
environment `Env W` acting on an abstract world `W`.  A run threads the world
through the calls in program order and records every call in a trace.

C `int` values are `Int`, `unsigned int` values are `Nat`; the wrapper does no
arithmetic on either, so no wrap-around is involved.  The only place where the
width of `int` matters is the decimal rendering of `IicNum` into the 20-byte
buffer `XIicDevFilename`.

A wrapper returns `Option (Int × Run W)`: the `int` it returns and the state of
the run.  `none` stands for the two situations in which C defines no behaviour:
a read of `RegVals[i]` beyond the array handed in, and a `sprintf` that writes
beyond the end of `XIicDevFilename`.
-/

namespace XrfdcClk

/-! ## Data model -/

/-- A two-dimensional `unsigned int` array, stored row by row. -/
abbrev Table := List (List Nat)

/-- One call that leaves the wrapper, with its actual arguments.  `c_open` and
`c_ioctl` also carry the value they returned, since the wrapper uses it. -/
inductive Call where
  | LMK04208ClockConfig (IicNum : Int) (CKin : Table)
  | LMK04832ClockConfig (IicNum : Int) (CKin : Table)
  | c_open (path : String) (flags : Int) (ret : Int)
  | c_ioctl (fd : Int) (request : Nat) (arg : Nat) (ret : Int)
  | c_printf (text : String)
  | Lmx2594Updatei2c (fd : Int) (RegVals : List Nat)
  | SC18IS602ClearInt (fd : Int)
  | c_close (fd : Int)
  deriving DecidableEq, Repr

/-- Everything the wrapper takes from its headers and from the system: the
constants `O_RDWR`, `I2C_SLAVE_FORCE`, `I2C_SPI_ADDR`, the system calls and the
vendor routines (as transformers of the world `W`), and the indeterminate
content of an automatic array that has not been written yet. -/
structure Env (W : Type) where
  O_RDWR : Int
  I2C_SLAVE_FORCE : Nat
  I2C_SPI_ADDR : Nat
  c_open : String → Int → W → Int × W
  c_ioctl : Int → Nat → Nat → W → Int × W
  c_close : Int → W → Int × W
  c_printf : String → W → W
  LMK04208ClockConfig : Int → Table → W → W
  LMK04832ClockConfig : Int → Table → W → W
  Lmx2594Updatei2c : Int → List Nat → W → W
  SC18IS602ClearInt : Int → W → W
  indeterminate : Nat → Nat

/-- State of a run: the world and the calls made so far, oldest first. -/
structure Run (W : Type) where
  world : W
  trace : List Call
  deriving DecidableEq

variable {W : Type}

/-! ## Calls into the environment, each one logged -/

/-- Perform `open(path, flags)`. -/
def call_open (env : Env W) (path : String) (flags : Int) (s : Run W) : Int × Run W :=
  let r := env.c_open path flags s.world
  (r.1, ⟨r.2, s.trace ++ [Call.c_open path flags r.1]⟩)

/-- Perform `ioctl(fd, request, arg)`. -/
def call_ioctl (env : Env W) (fd : Int) (request arg : Nat) (s : Run W) : Int × Run W :=
  let r := env.c_ioctl fd request arg s.world
  (r.1, ⟨r.2, s.trace ++ [Call.c_ioctl fd request arg r.1]⟩)

/-- Perform `close(fd)`; its result is not used by the wrapper. -/
def call_close (env : Env W) (fd : Int) (s : Run W) : Run W :=
  ⟨(env.c_close fd s.world).2, s.trace ++ [Call.c_close fd]⟩

/-- Perform `printf(text)`. -/
def call_printf (env : Env W) (text : String) (s : Run W) : Run W :=
  ⟨env.c_printf text s.world, s.trace ++ [Call.c_printf text]⟩

/-- Perform `LMK04208ClockConfig(IicNum, CKin)`. -/
def call_LMK04208ClockConfig (env : Env W) (IicNum : Int) (CKin : Table) (s : Run W) : Run W :=
  ⟨env.LMK04208ClockConfig IicNum CKin s.world, s.trace ++ [Call.LMK04208ClockConfig IicNum CKin]⟩

/-- Perform `LMK04832ClockConfig(IicNum, CKin)`. -/
def call_LMK04832ClockConfig (env : Env W) (IicNum : Int) (CKin : Table) (s : Run W) : Run W :=
  ⟨env.LMK04832ClockConfig IicNum CKin s.world, s.trace ++ [Call.LMK04832ClockConfig IicNum CKin]⟩

/-- Perform `Lmx2594Updatei2c(fd, RegVals)`. -/
def call_Lmx2594Updatei2c (env : Env W) (fd : Int) (RegVals : List Nat) (s : Run W) : Run W :=
  ⟨env.Lmx2594Updatei2c fd RegVals s.world, s.trace ++ [Call.Lmx2594Updatei2c fd RegVals]⟩

/-- Perform `SC18IS602ClearInt(fd)`. -/
def call_SC18IS602ClearInt (env : Env W) (fd : Int) (s : Run W) : Run W :=
  ⟨env.SC18IS602ClearInt fd s.world, s.trace ++ [Call.SC18IS602ClearInt fd]⟩

/-! ## The copy loops -/

/-- The automatic array `unsigned int CKin[1][n]` right after its declaration. -/
def freshTable (env : Env W) (n : Nat) : Table :=
  [(List.range n).map env.indeterminate]

/-- The assignment `CKin[0][i] = v`. -/
def storeRow0 (CKin : Table) (i v : Nat) : Table :=
  match CKin with
  | [] => []
  | row :: rest => row.set i v :: rest

/-- The loop `for (int i = ...; i < bound; i++) CKin[0][i] = RegVals[i];` with
`remaining = bound - i` iterations to go.  Reading `RegVals[i]` beyond the
array of the caller has no defined result: `none`. -/
def copyRegs (RegVals : List Nat) : Nat → Nat → Table → Option Table
  | 0, _, CKin => some CKin
  | remaining + 1, i, CKin =>
    match RegVals[i]? with
    | none => none
    | some v => copyRegs RegVals remaining (i + 1) (storeRow0 CKin i v)

/-! ## `sprintf(XIicDevFilename, "/dev/i2c-%d", IicNum)` -/

/-- Smallest value of a 32-bit `int`. -/
def INT_MIN : Int := -2147483648

/-- Largest value of a 32-bit `int`. -/
def INT_MAX : Int := 2147483647

/-- Decimal digits of `n`, most significant first, written in front of `acc`;
`fuel` bounds the number of digits produced. -/
def decimalDigits : Nat → Nat → List Char → List Char
  | 0, _, acc => acc
  | fuel + 1, n, acc =>
    if n < 10 then Nat.digitChar n :: acc
    else decimalDigits fuel (n / 10) (Nat.digitChar (n % 10) :: acc)

/-- The conversion `%d` of `printf`: an optional minus sign and the decimal
digits of the magnitude, no padding. -/
def fmt_d (v : Int) : List Char :=
  if v < 0 then '-' :: decimalDigits (v.natAbs + 1) v.natAbs []
  else decimalDigits (v.natAbs + 1) v.natAbs []

/-- The characters `sprintf` produces for the format `"/dev/i2c-%d"`. -/
def devPath (IicNum : Int) : String :=
  String.mk ("/dev/i2c-".data ++ fmt_d IicNum)

/-- Bytes `sprintf` stores for `devPath IicNum`: the characters and the
terminating zero byte. -/
def devPathBytes (IicNum : Int) : Nat :=
  (devPath IicNum).length + 1

/-- The call `sprintf(XIicDevFilename, "/dev/i2c-%d", IicNum)` into a buffer of
`capacity` bytes.  A write past the end of the buffer has no defined
behaviour: `none`. -/
def sprintf_devPath (capacity : Nat) (IicNum : Int) : Option String :=
  if devPathBytes IicNum ≤ capacity then some (devPath IicNum) else none

/-! ## The four wrappers -/

/-- Source: `int writeLmk04208Regs(int IicNum, unsigned int RegVals[26])`, compiled
under `BOARD_ZCU111`. -/
def writeLmk04208Regs (env : Env W) (IicNum : Int) (RegVals : List Nat) (s : Run W) :
    Option (Int × Run W) :=
  match copyRegs RegVals 26 0 (freshTable env 26) with
  | none => none
  | some LMK04208_CKin =>
    let s1 := call_LMK04208ClockConfig env IicNum LMK04208_CKin s
    some (0, s1)

/-- Source: `int writeLmk04832Regs(int IicNum, unsigned int RegVals[125])`, compiled
under `BOARD_XUPRFSOC`. -/
def writeLmk04832Regs (env : Env W) (IicNum : Int) (RegVals : List Nat) (s : Run W) :
    Option (Int × Run W) :=
  match copyRegs RegVals 125 0 (freshTable env 125) with
  | none => none
  | some LMK04832_CKin =>
    let s1 := call_LMK04832ClockConfig env IicNum LMK04832_CKin s
    some (0, s1)

/-- Source: `int writeLmx2594Regs(int IicNum, unsigned int RegVals[113])`, compiled
under either board.  `RegVals` is handed on as it came; the early `return 1`
leaves without `close`. -/
def writeLmx2594Regs (env : Env W) (IicNum : Int) (RegVals : List Nat) (s : Run W) :
    Option (Int × Run W) :=
  match sprintf_devPath 20 IicNum with
  | none => none
  | some XIicDevFilename =>
    let r1 := call_open env XIicDevFilename env.O_RDWR s
    let XIicDevFile := r1.1
    let r2 := call_ioctl env XIicDevFile env.I2C_SLAVE_FORCE env.I2C_SPI_ADDR r1.2
    if r2.1 < 0 then
      let s3 := call_printf env "Error: Could not set address \n" r2.2
      some (1, s3)
    else
      let s3 := call_Lmx2594Updatei2c env XIicDevFile RegVals r2.2
      let s4 := call_close env XIicDevFile s3
      some (0, s4)

/-- Source: `int clearInt(int IicNum)`, compiled under either board. -/
def clearInt (env : Env W) (IicNum : Int) (s : Run W) : Option (Int × Run W) :=
  match sprintf_devPath 20 IicNum with
  | none => none
  | some XIicDevFilename =>
    let r1 := call_open env XIicDevFilename env.O_RDWR s
    let XIicDevFile := r1.1
    let r2 := call_ioctl env XIicDevFile env.I2C_SLAVE_FORCE env.I2C_SPI_ADDR r1.2
    if r2.1 < 0 then
      let s3 := call_printf env "Error: Could not set address \n" r2.2
      some (1, s3)
    else
      let s3 := call_SC18IS602ClearInt env XIicDevFile r2.2
      let s4 := call_close env XIicDevFile s3
      some (0, s4)

/-- A run that has made no call yet. -/
def Run.start (w : W) : Run W := ⟨w, []⟩

/-! ## Observations on a call of `writeLmx2594Regs` or `clearInt` -/

/-- What the environment answers to the `open` of a call started in state `s`:
the descriptor (or a negative value) and the next world. -/
def openOutcome (env : Env W) (IicNum : Int) (s : Run W) : Int × W :=
  env.c_open (devPath IicNum) env.O_RDWR s.world

/-- What the environment answers to the set-address `ioctl` that follows that
`open`. -/
def ioctlOutcome (env : Env W) (IicNum : Int) (s : Run W) : Int × W :=
  env.c_ioctl (openOutcome env IicNum s).1 env.I2C_SLAVE_FORCE env.I2C_SPI_ADDR
    (openOutcome env IicNum s).2

/-- Is this call an `open`? -/
def Call.isOpen : Call → Bool
  | Call.c_open _ _ _ => true
  | _ => false

/-- Is this call an `ioctl`? -/
def Call.isIoctl : Call → Bool
  | Call.c_ioctl _ _ _ _ => true
  | _ => false

/-- Is this call a `close`? -/
def Call.isClose : Call → Bool
  | Call.c_close _ => true
  | _ => false

/-- Is this call a `LMK04208ClockConfig`? -/
def Call.isLMK04208ClockConfig : Call → Bool
  | Call.LMK04208ClockConfig _ _ => true
  | _ => false

/-- Is this call a `LMK04832ClockConfig`? -/
def Call.isLMK04832ClockConfig : Call → Bool
  | Call.LMK04832ClockConfig _ _ => true
  | _ => false

/-- Is this call a `Lmx2594Updatei2c`? -/
def Call.isLmx2594Updatei2c : Call → Bool
  | Call.Lmx2594Updatei2c _ _ => true
  | _ => false

/-- Is this call a `SC18IS602ClearInt`? -/
def Call.isSC18IS602ClearInt : Call → Bool
  | Call.SC18IS602ClearInt _ => true
  | _ => false

/-- A concrete environment for evaluating the wrappers: the Linux values of
`O_RDWR` and `I2C_SLAVE_FORCE`, the bridge address `0x2F`, a trivial world,
`open` answering `fd` and `ioctl` answering `r`. -/
def sampleEnv (fd r : Int) : Env Unit where
  O_RDWR := 2
  I2C_SLAVE_FORCE := 0x0706
  I2C_SPI_ADDR := 0x2F
  c_open := fun _ _ w => (fd, w)
  c_ioctl := fun _ _ _ w => (r, w)
  c_close := fun _ w => (0, w)
  c_printf := fun _ w => w
  LMK04208ClockConfig := fun _ _ w => w
  LMK04832ClockConfig := fun _ _ w => w
  Lmx2594Updatei2c := fun _ _ w => w
  SC18IS602ClearInt := fun _ w => w
  indeterminate := fun i => 0xDEAD0000 + i

/-! ## The copy loop copies all of `RegVals` -/

/-- Loop invariant of `copyRegs`: the cells `i .. i + k - 1` of the row are overwritten
with the same cells of `RegVals`, the others are kept. -/
theorem copyRegs_row (RegVals : List Nat) :
    ∀ (k i : Nat) (row : List Nat), i + k ≤ RegVals.length → i + k ≤ row.length →
      ∃ out, copyRegs RegVals k i [row] = some [out] ∧ out.length = row.length ∧
        ∀ j, out[j]? = if i ≤ j ∧ j < i + k then RegVals[j]? else row[j]? := by
  intro k
  induction k with
  | zero =>
    intro i row _ _
    refine ⟨row, rfl, rfl, ?_⟩
    intro j
    rw [if_neg (by omega)]
  | succ k ih =>
    intro i row hR hrow
    have hi : i < RegVals.length := by omega
    obtain ⟨out, hout, hlen, hget⟩ := ih (i + 1) (row.set i RegVals[i]) (by omega)
      (by rw [List.length_set]; omega)
    refine ⟨out, ?_, ?_, ?_⟩
    · simp only [copyRegs, List.getElem?_eq_getElem hi, storeRow0]
      exact hout
    · rw [hlen, List.length_set]
    · intro j
      rw [hget j]
      by_cases h1 : i + 1 ≤ j ∧ j < i + 1 + k
      · rw [if_pos h1, if_pos (by omega)]
      · rw [if_neg h1]
        by_cases h2 : i = j
        · subst h2
          rw [if_pos (by omega), List.getElem?_set_self (by omega), List.getElem?_eq_getElem hi]
        · rw [if_neg (by omega), List.getElem?_set_ne h2]

/-- A full pass over an `n`-cell row replaces all of its indeterminate content by
`RegVals`. -/
theorem copyRegs_full (env : Env W) (RegVals : List Nat) (n : Nat) (hlen : RegVals.length = n) :
    copyRegs RegVals n 0 (freshTable env n) = some [RegVals] := by
  obtain ⟨out, hout, hl, hget⟩ := copyRegs_row RegVals n 0 ((List.range n).map env.indeterminate)
    (by omega) (by simp)
  have : out = RegVals := by
    apply List.ext_getElem?
    intro j
    rw [hget j]
    by_cases hj : j < n
    · rw [if_pos (by omega)]
    · rw [if_neg (by omega)]
      rw [List.getElem?_eq_none (by simp; omega), List.getElem?_eq_none (by omega)]
  rw [freshTable, hout, this]

/-! ## Length of the decimal rendering -/

/-- A number below `10 ^ (k + 1)` has at most `k + 1` digits. -/
theorem decimalDigits_length_le (fuel : Nat) :
    ∀ (n k : Nat) (acc : List Char), n < fuel → n < 10 ^ (k + 1) →
      (decimalDigits fuel n acc).length ≤ acc.length + (k + 1) := by
  induction fuel with
  | zero => intro n k acc h; omega
  | succ fuel ih =>
    intro n k acc hf hn
    unfold decimalDigits
    split
    · simp only [List.length_cons]; omega
    · rename_i h10
      cases k with
      | zero => simp at hn; omega
      | succ k =>
        have h1 : n / 10 < fuel := by omega
        have h2 : n / 10 < 10 ^ (k + 1) := by
          rw [Nat.div_lt_iff_lt_mul (by decide)]
          calc n < 10 ^ (k + 1 + 1) := hn
            _ = 10 ^ (k + 1) * 10 := by rw [Nat.pow_succ]
        have := ih (n / 10) k (Nat.digitChar (n % 10) :: acc) h1 h2
        simp only [List.length_cons] at this
        omega

/-- A number from `10 ^ k` on has at least `k + 1` digits. -/
theorem decimalDigits_length_ge (fuel : Nat) :
    ∀ (n k : Nat) (acc : List Char), n < fuel → 10 ^ k ≤ n →
      acc.length + (k + 1) ≤ (decimalDigits fuel n acc).length := by
  induction fuel with
  | zero => intro n k acc h; omega
  | succ fuel ih =>
    intro n k acc hf hn
    unfold decimalDigits
    split
    · rename_i h10
      cases k with
      | zero => simp only [List.length_cons]; omega
      | succ k =>
        have : 10 ^ 1 ≤ 10 ^ (k + 1) := Nat.pow_le_pow_right (by decide) (by omega)
        omega
    · rename_i h10
      cases k with
      | zero =>
        have := ih (n / 10) 0 (Nat.digitChar (n % 10) :: acc) (by omega) (by simp; omega)
        simp only [List.length_cons] at this
        omega
      | succ k =>
        have h2 : 10 ^ k ≤ n / 10 := by
          rw [Nat.le_div_iff_mul_le (by decide)]
          calc 10 ^ k * 10 = 10 ^ (k + 1) := by rw [Nat.pow_succ]
            _ ≤ n := hn
        have := ih (n / 10) k (Nat.digitChar (n % 10) :: acc) (by omega) h2
        simp only [List.length_cons] at this
        omega

/-- The path is the nine characters of `/dev/i2c-` and the rendering of `IicNum`. -/
theorem devPath_length (IicNum : Int) : (devPath IicNum).length = 9 + (fmt_d IicNum).length := by
  simp [devPath, String.length]
  omega

/-- The digits agree with the decimal digits of the core library. -/
theorem decimalDigits_eq_toDigitsCore (fuel : Nat) :
    ∀ (n : Nat) (acc : List Char), decimalDigits fuel n acc = Nat.toDigitsCore 10 fuel n acc := by
  induction fuel with
  | zero => intro n acc; rfl
  | succ fuel ih =>
    intro n acc
    unfold decimalDigits Nat.toDigitsCore
    by_cases h : n < 10
    · have h1 : n / 10 = 0 := by omega
      have h2 : n % 10 = n := by omega
      simp [h, h1, h2]
    · have h1 : ¬ n / 10 = 0 := by omega
      simp [h, h1, ih]

/-- The `%d` rendering agrees with the decimal rendering of the core library. -/
theorem fmt_d_eq_repr (v : Int) : String.mk (fmt_d v) = toString v := by
  unfold fmt_d
  cases v with
  | ofNat m =>
    have h : ¬ (Int.ofNat m < 0) := by simp
    rw [if_neg h, decimalDigits_eq_toDigitsCore]
    rfl
  | negSucc m =>
    have h : Int.negSucc m < 0 := Int.negSucc_lt_zero m
    rw [if_pos h, decimalDigits_eq_toDigitsCore]
    rfl

/-- The path is `/dev/i2c-` followed by the decimal rendering of `IicNum`. -/
theorem devPath_eq_toString (IicNum : Int) : devPath IicNum = "/dev/i2c-" ++ toString IicNum := by
  rw [← fmt_d_eq_repr]
  rfl

/-- A non-negative `int` renders in at most 10 characters. -/
theorem fmt_d_length_nonneg (v : Int) (h0 : 0 ≤ v) (h1 : v ≤ INT_MAX) : (fmt_d v).length ≤ 10 := by
  unfold INT_MAX at h1
  have hk := decimalDigits_length_le (v.natAbs + 1) v.natAbs 9 [] (by omega) (by norm_num; omega)
  unfold fmt_d
  rw [if_neg (by omega)]
  simpa using hk

/-- A negative `int` of at most nine digits renders in at most 10 characters. -/
theorem fmt_d_length_small_neg (v : Int) (h0 : -999999999 ≤ v) (h1 : v < 0) :
    (fmt_d v).length ≤ 10 := by
  have hk := decimalDigits_length_le (v.natAbs + 1) v.natAbs 8 [] (by omega) (by norm_num; omega)
  unfold fmt_d
  rw [if_pos h1]
  simp only [List.length_cons, List.length_nil] at hk ⊢
  omega

/-- A negative `int` of ten digits renders in exactly 11 characters. -/
theorem fmt_d_length_big_neg (v : Int) (h0 : INT_MIN ≤ v) (h1 : v ≤ -1000000000) :
    (fmt_d v).length = 11 := by
  unfold INT_MIN at h0
  have hk := decimalDigits_length_le (v.natAbs + 1) v.natAbs 9 [] (by omega) (by norm_num; omega)
  have hk2 := decimalDigits_length_ge (v.natAbs + 1) v.natAbs 9 [] (by omega) (by norm_num; omega)
  unfold fmt_d
  rw [if_pos (by omega)]
  simp only [List.length_cons, List.length_nil] at hk hk2 ⊢
  omega

/-! ## The device path and its buffer -/

/-- Bytes stored by `sprintf`: nine, the rendering, and the terminator. -/
theorem devPathBytes_eq (IicNum : Int) : devPathBytes IicNum = 10 + (fmt_d IicNum).length := by
  rw [devPathBytes, devPath_length]
  omega

/-- From -999999999 up to `INT_MAX` the path fits the 20-byte buffer. -/
theorem sprintf_devPath_fits (IicNum : Int) (hlo : -999999999 ≤ IicNum) (hhi : IicNum ≤ INT_MAX) :
    sprintf_devPath 20 IicNum = some (devPath IicNum) := by
  have hb : devPathBytes IicNum ≤ 20 := by
    rw [devPathBytes_eq]
    by_cases h0 : 0 ≤ IicNum
    · have := fmt_d_length_nonneg IicNum h0 hhi
      omega
    · have := fmt_d_length_small_neg IicNum hlo (by omega)
      omega
  rw [sprintf_devPath, if_pos hb]

/-- From `INT_MIN` up to -1000000000 the path overruns the 20-byte buffer. -/
theorem sprintf_devPath_overrun (IicNum : Int) (hmin : INT_MIN ≤ IicNum)
    (hhi : IicNum ≤ -1000000000) : sprintf_devPath 20 IicNum = none := by
  have hb : ¬ devPathBytes IicNum ≤ 20 := by
    rw [devPathBytes_eq, fmt_d_length_big_neg IicNum hmin hhi]
    omega
  rw [sprintf_devPath, if_neg hb]

/-! ## The two paths through `writeLmx2594Regs` and `clearInt` -/

/-- The path of `writeLmx2594Regs` through `return 1`. -/
theorem writeLmx2594Regs_ioctl_failed (env : Env W) (IicNum : Int) (RegVals : List Nat)
    (s : Run W) (hlo : -999999999 ≤ IicNum) (hhi : IicNum ≤ INT_MAX)
    (hio : (ioctlOutcome env IicNum s).1 < 0) :
    writeLmx2594Regs env IicNum RegVals s =
      some (1, ⟨env.c_printf "Error: Could not set address \n" (ioctlOutcome env IicNum s).2,
        s.trace ++
          [Call.c_open (devPath IicNum) env.O_RDWR (openOutcome env IicNum s).1,
           Call.c_ioctl (openOutcome env IicNum s).1 env.I2C_SLAVE_FORCE env.I2C_SPI_ADDR
             (ioctlOutcome env IicNum s).1,
           Call.c_printf "Error: Could not set address \n"]⟩) := by
  simp only [ioctlOutcome, openOutcome] at hio ⊢
  simp [writeLmx2594Regs, sprintf_devPath_fits IicNum hlo hhi, call_open, call_ioctl,
    call_printf, hio]

/-- The path of `writeLmx2594Regs` through `return 0`. -/
theorem writeLmx2594Regs_ioctl_ok (env : Env W) (IicNum : Int) (RegVals : List Nat)
    (s : Run W) (hlo : -999999999 ≤ IicNum) (hhi : IicNum ≤ INT_MAX)
    (hio : 0 ≤ (ioctlOutcome env IicNum s).1) :
    writeLmx2594Regs env IicNum RegVals s =
      some (0, ⟨(env.c_close (openOutcome env IicNum s).1
          (env.Lmx2594Updatei2c (openOutcome env IicNum s).1 RegVals
            (ioctlOutcome env IicNum s).2)).2,
        s.trace ++
          [Call.c_open (devPath IicNum) env.O_RDWR (openOutcome env IicNum s).1,
           Call.c_ioctl (openOutcome env IicNum s).1 env.I2C_SLAVE_FORCE env.I2C_SPI_ADDR
             (ioctlOutcome env IicNum s).1,
           Call.Lmx2594Updatei2c (openOutcome env IicNum s).1 RegVals,
           Call.c_close (openOutcome env IicNum s).1]⟩) := by
  simp only [ioctlOutcome, openOutcome] at hio ⊢
  simp [writeLmx2594Regs, sprintf_devPath_fits IicNum hlo hhi, call_open, call_ioctl,
    call_Lmx2594Updatei2c, call_close, not_lt.mpr hio]

/-- The path of `clearInt` through `return 1`. -/
theorem clearInt_ioctl_failed (env : Env W) (IicNum : Int)
    (s : Run W) (hlo : -999999999 ≤ IicNum) (hhi : IicNum ≤ INT_MAX)
    (hio : (ioctlOutcome env IicNum s).1 < 0) :
    clearInt env IicNum s =
      some (1, ⟨env.c_printf "Error: Could not set address \n" (ioctlOutcome env IicNum s).2,
        s.trace ++
          [Call.c_open (devPath IicNum) env.O_RDWR (openOutcome env IicNum s).1,
           Call.c_ioctl (openOutcome env IicNum s).1 env.I2C_SLAVE_FORCE env.I2C_SPI_ADDR
             (ioctlOutcome env IicNum s).1,
           Call.c_printf "Error: Could not set address \n"]⟩) := by
  simp only [ioctlOutcome, openOutcome] at hio ⊢
  simp [clearInt, sprintf_devPath_fits IicNum hlo hhi, call_open, call_ioctl,
    call_printf, hio]

/-- The path of `clearInt` through `return 0`. -/
theorem clearInt_ioctl_ok (env : Env W) (IicNum : Int)
    (s : Run W) (hlo : -999999999 ≤ IicNum) (hhi : IicNum ≤ INT_MAX)
    (hio : 0 ≤ (ioctlOutcome env IicNum s).1) :
    clearInt env IicNum s =
      some (0, ⟨(env.c_close (openOutcome env IicNum s).1
          (env.SC18IS602ClearInt (openOutcome env IicNum s).1
            (ioctlOutcome env IicNum s).2)).2,
        s.trace ++
          [Call.c_open (devPath IicNum) env.O_RDWR (openOutcome env IicNum s).1,
           Call.c_ioctl (openOutcome env IicNum s).1 env.I2C_SLAVE_FORCE env.I2C_SPI_ADDR
             (ioctlOutcome env IicNum s).1,
           Call.SC18IS602ClearInt (openOutcome env IicNum s).1,
           Call.c_close (openOutcome env IicNum s).1]⟩) := by
  simp only [ioctlOutcome, openOutcome] at hio ⊢
  simp [clearInt, sprintf_devPath_fits IicNum hlo hhi, call_open, call_ioctl,
    call_SC18IS602ClearInt, call_close, not_lt.mpr hio]

/-- The result of `writeLmk04208Regs` on a 26-element array. -/
theorem writeLmk04208Regs_eq (env : Env W) (IicNum : Int) (RegVals : List Nat) (s : Run W)
    (hlen : RegVals.length = 26) :
    writeLmk04208Regs env IicNum RegVals s =
      some (0, ⟨env.LMK04208ClockConfig IicNum [RegVals] s.world,
        s.trace ++ [Call.LMK04208ClockConfig IicNum [RegVals]]⟩) := by
  simp [writeLmk04208Regs, copyRegs_full env RegVals 26 hlen, call_LMK04208ClockConfig]

/-- The result of `writeLmk04832Regs` on a 125-element array. -/
theorem writeLmk04832Regs_eq (env : Env W) (IicNum : Int) (RegVals : List Nat) (s : Run W)
    (hlen : RegVals.length = 125) :
    writeLmk04832Regs env IicNum RegVals s =
      some (0, ⟨env.LMK04832ClockConfig IicNum [RegVals] s.world,
        s.trace ++ [Call.LMK04832ClockConfig IicNum [RegVals]]⟩) := by
  simp [writeLmk04832Regs, copyRegs_full env RegVals 125 hlen, call_LMK04832ClockConfig]

/-! ## The LMK wrappers -/

/-- C1: for every `IicNum` and every 26-element `RegVals`, in every environment,
`writeLmk04208Regs` makes exactly one call, `LMK04208ClockConfig(IicNum, CKin)`,
where `CKin` is a table of one row of 26 cells that agrees with `RegVals` at
every index below 26, and then returns 0. -/
theorem writeLmk04208Regs_forwards (env : Env W) (IicNum : Int) (RegVals : List Nat)
    (s : Run W) (hlen : RegVals.length = 26) :
    ∃ (row : List Nat) (run : Run W),
      writeLmk04208Regs env IicNum RegVals s = some (0, run) ∧
      run.trace = s.trace ++ [Call.LMK04208ClockConfig IicNum [row]] ∧
      run.world = env.LMK04208ClockConfig IicNum [row] s.world ∧
      row.length = 26 ∧ ∀ i, i < 26 → row[i]? = RegVals[i]? :=
  ⟨RegVals, _, writeLmk04208Regs_eq env IicNum RegVals s hlen, rfl, rfl, hlen, fun _ _ => rfl⟩

/-- Instance of C1 at `RegVals = [0, 1, ..., 25]`. -/
theorem writeLmk04208Regs_forwards_witness :
    (List.range 26).length = 26 ∧
    ∃ (row : List Nat) (run : Run Unit),
      writeLmk04208Regs (sampleEnv 3 0) 1 (List.range 26) (Run.start ()) = some (0, run) ∧
      run.trace = [] ++ [Call.LMK04208ClockConfig 1 [row]] ∧
      run.world = () ∧
      row.length = 26 ∧ ∀ i, i < 26 → row[i]? = (List.range 26)[i]? :=
  ⟨List.length_range 26,
    writeLmk04208Regs_forwards (sampleEnv 3 0) 1 (List.range 26) (Run.start ())
      (List.length_range 26)⟩

/-- C2: for every `IicNum` and every 125-element `RegVals`, in every environment,
`writeLmk04832Regs` makes exactly one call, `LMK04832ClockConfig(IicNum, CKin)`,
where `CKin` is a table of one row of 125 cells that agrees with `RegVals` at
every index below 125, and then returns 0. -/
theorem writeLmk04832Regs_forwards (env : Env W) (IicNum : Int) (RegVals : List Nat)
    (s : Run W) (hlen : RegVals.length = 125) :
    ∃ (row : List Nat) (run : Run W),
      writeLmk04832Regs env IicNum RegVals s = some (0, run) ∧
      run.trace = s.trace ++ [Call.LMK04832ClockConfig IicNum [row]] ∧
      run.world = env.LMK04832ClockConfig IicNum [row] s.world ∧
      row.length = 125 ∧ ∀ i, i < 125 → row[i]? = RegVals[i]? :=
  ⟨RegVals, _, writeLmk04832Regs_eq env IicNum RegVals s hlen, rfl, rfl, hlen, fun _ _ => rfl⟩

/-- Instance of C2 at `RegVals = [0, 1, ..., 124]`. -/
theorem writeLmk04832Regs_forwards_witness :
    (List.range 125).length = 125 ∧
    ∃ (row : List Nat) (run : Run Unit),
      writeLmk04832Regs (sampleEnv 3 0) (-7) (List.range 125) (Run.start ()) = some (0, run) ∧
      run.trace = [] ++ [Call.LMK04832ClockConfig (-7) [row]] ∧
      run.world = () ∧
      row.length = 125 ∧ ∀ i, i < 125 → row[i]? = (List.range 125)[i]? :=
  ⟨List.length_range 125,
    writeLmk04832Regs_forwards (sampleEnv 3 0) (-7) (List.range 125) (Run.start ())
      (List.length_range 125)⟩

/-! ## `writeLmx2594Regs` -/

/-- C3 (as amended): for every `IicNum` from -999999999 up to `INT_MAX`, so that
the device path fits the 20-byte buffer, and every `RegVals` (of 113 elements or
any other length), when the set-address ioctl returns a non-negative result,
`writeLmx2594Regs` makes exactly these calls in this order: `open` of
`"/dev/i2c-<decimal IicNum>"` with `O_RDWR` yielding `fd`,
`ioctl(fd, I2C_SLAVE_FORCE, I2C_SPI_ADDR)`, `Lmx2594Updatei2c(fd, RegVals)`,
`close(fd)`; and it returns 0. -/
theorem writeLmx2594Regs_success_trace (env : Env W) (IicNum : Int) (RegVals : List Nat)
    (s : Run W) (hlo : -999999999 ≤ IicNum) (hhi : IicNum ≤ INT_MAX)
    (hio : 0 ≤ (ioctlOutcome env IicNum s).1) :
    ∃ run : Run W,
      writeLmx2594Regs env IicNum RegVals s = some (0, run) ∧
      run.trace = s.trace ++
        [Call.c_open ("/dev/i2c-" ++ toString IicNum) env.O_RDWR (openOutcome env IicNum s).1,
         Call.c_ioctl (openOutcome env IicNum s).1 env.I2C_SLAVE_FORCE env.I2C_SPI_ADDR
           (ioctlOutcome env IicNum s).1,
         Call.Lmx2594Updatei2c (openOutcome env IicNum s).1 RegVals,
         Call.c_close (openOutcome env IicNum s).1] := by
  refine ⟨_, writeLmx2594Regs_ioctl_ok env IicNum RegVals s hlo hhi hio, ?_⟩
  rw [← devPath_eq_toString]

/-- Instance of C3 at `IicNum = 1`, `open` answering 3 and the ioctl 0. -/
theorem writeLmx2594Regs_success_trace_witness :
    (-999999999 : Int) ≤ 1 ∧ (1 : Int) ≤ INT_MAX ∧
    0 ≤ (ioctlOutcome (sampleEnv 3 0) 1 (Run.start ())).1 ∧
    ∃ run : Run Unit,
      writeLmx2594Regs (sampleEnv 3 0) 1 (List.range 113) (Run.start ()) = some (0, run) ∧
      run.trace = [] ++
        [Call.c_open ("/dev/i2c-" ++ toString (1 : Int)) 2 3,
         Call.c_ioctl 3 0x0706 0x2F 0,
         Call.Lmx2594Updatei2c 3 (List.range 113),
         Call.c_close 3] :=
  ⟨by decide, by decide, by decide,
    writeLmx2594Regs_success_trace (sampleEnv 3 0) 1 (List.range 113) (Run.start ())
      (by decide) (by decide) (by decide)⟩

/-- C3 (as stated) fails: `IicNum = -1000000000` is a value of `int` and the
environment answers the ioctl with 0, but the path needs 21 bytes, the write to
the 20-byte buffer has no defined behaviour, and the call has no result; in
particular it does not return 0 after the four calls. -/
theorem writeLmx2594Regs_success_trace_fails_at_minus_1000000000 :
    INT_MIN ≤ (-1000000000 : Int) ∧ (-1000000000 : Int) ≤ INT_MAX ∧
    (List.replicate 113 0).length = 113 ∧
    0 ≤ (ioctlOutcome (sampleEnv 3 0) (-1000000000) (Run.start ())).1 ∧
    devPathBytes (-1000000000) = 21 ∧
    writeLmx2594Regs (sampleEnv 3 0) (-1000000000) (List.replicate 113 0) (Run.start ()) = none ∧
    ¬ ∃ run : Run Unit,
      writeLmx2594Regs (sampleEnv 3 0) (-1000000000) (List.replicate 113 0) (Run.start ())
        = some (0, run) := by
  refine ⟨by decide, by decide, List.length_replicate _ _, by decide, by decide, by decide, ?_⟩
  rintro ⟨run, h⟩
  have hn : writeLmx2594Regs (sampleEnv 3 0) (-1000000000) (List.replicate 113 0)
      (Run.start ()) = none := by decide
  rw [hn] at h
  exact Option.noConfusion h

/-- C4 at the failing input: `IicNum = 0`, `open` answers 3, the ioctl answers -1.
Both `writeLmx2594Regs` and `clearInt` return 1 after `open`, `ioctl` and
`printf`; no `close` is made, so descriptor 3 stays open. -/
theorem fd_left_open_when_ioctl_fails :
    writeLmx2594Regs (sampleEnv 3 (-1)) 0 (List.replicate 113 0) (Run.start ()) =
      some (1, ⟨(), [Call.c_open "/dev/i2c-0" 2 3, Call.c_ioctl 3 0x0706 0x2F (-1),
        Call.c_printf "Error: Could not set address \n"]⟩) ∧
    clearInt (sampleEnv 3 (-1)) 0 (Run.start ()) =
      some (1, ⟨(), [Call.c_open "/dev/i2c-0" 2 3, Call.c_ioctl 3 0x0706 0x2F (-1),
        Call.c_printf "Error: Could not set address \n"]⟩) ∧
    Call.c_close 3 ∉ [Call.c_open "/dev/i2c-0" 2 3, Call.c_ioctl 3 0x0706 0x2F (-1),
        Call.c_printf "Error: Could not set address \n"] ∧
    [Call.c_open "/dev/i2c-0" 2 3, Call.c_ioctl 3 0x0706 0x2F (-1),
        Call.c_printf "Error: Could not set address \n"].countP Call.isClose = 0 := by
  refine ⟨by decide, by decide, by decide, by decide⟩

/-- C5 (as amended): for every `IicNum` from -999999999 up to `INT_MAX`,
`writeLmx2594Regs` returns 1 if and only if the set-address ioctl returns a
negative result and returns 0 otherwise; whenever it returns 1 the calls made
are `open`, `ioctl`, `printf` only, so `Lmx2594Updatei2c` is not called. -/
theorem writeLmx2594Regs_return_value (env : Env W) (IicNum : Int) (RegVals : List Nat)
    (s : Run W) (hlo : -999999999 ≤ IicNum) (hhi : IicNum ≤ INT_MAX) :
    ∃ (ret : Int) (run : Run W) (calls : List Call),
      writeLmx2594Regs env IicNum RegVals s = some (ret, run) ∧
      run.trace = s.trace ++ calls ∧
      Call.c_ioctl (openOutcome env IicNum s).1 env.I2C_SLAVE_FORCE env.I2C_SPI_ADDR
        (ioctlOutcome env IicNum s).1 ∈ calls ∧
      (ret = 1 ↔ (ioctlOutcome env IicNum s).1 < 0) ∧
      (ret = 0 ↔ 0 ≤ (ioctlOutcome env IicNum s).1) ∧
      (ret = 1 → ∀ fd regs, Call.Lmx2594Updatei2c fd regs ∉ calls) := by
  by_cases hio : (ioctlOutcome env IicNum s).1 < 0
  · refine ⟨1, _, _, writeLmx2594Regs_ioctl_failed env IicNum RegVals s hlo hhi hio, rfl,
      by simp, by simp [hio], ?_, ?_⟩
    · constructor
      · intro h; exact absurd h (by decide)
      · intro h; omega
    · intro _ fd regs; simp
  · refine ⟨0, _, _, writeLmx2594Regs_ioctl_ok env IicNum RegVals s hlo hhi (by omega), rfl,
      by simp, ?_, ?_, ?_⟩
    · constructor
      · intro h; exact absurd h (by decide)
      · intro h; exact absurd h hio
    · constructor
      · intro _; omega
      · intro _; rfl
    · intro h; exact absurd h (by decide)

/-- Instance of C5 at the least fitting value `IicNum = -999999999`, the ioctl
answering -1. -/
theorem writeLmx2594Regs_return_value_witness :
    (-999999999 : Int) ≤ -999999999 ∧ (-999999999 : Int) ≤ INT_MAX ∧
    ∃ (ret : Int) (run : Run Unit) (calls : List Call),
      writeLmx2594Regs (sampleEnv 3 (-1)) (-999999999) (List.range 113) (Run.start ())
        = some (ret, run) ∧
      run.trace = [] ++ calls ∧
      Call.c_ioctl 3 0x0706 0x2F (-1) ∈ calls ∧
      (ret = 1 ↔ (-1 : Int) < 0) ∧
      (ret = 0 ↔ 0 ≤ (-1 : Int)) ∧
      (ret = 1 → ∀ fd regs, Call.Lmx2594Updatei2c fd regs ∉ calls) :=
  ⟨by decide, by decide,
    writeLmx2594Regs_return_value (sampleEnv 3 (-1)) (-999999999) (List.range 113)
      (Run.start ()) (by decide) (by decide)⟩

/-- C5 (as stated) fails: at `IicNum = INT_MIN` with the ioctl answering -1 the
path overruns the buffer and `writeLmx2594Regs` has no result, so it does not
return 1 although the ioctl result is negative. -/
theorem writeLmx2594Regs_return_value_fails_at_INT_MIN :
    INT_MIN ≤ (-2147483648 : Int) ∧ (-2147483648 : Int) ≤ INT_MAX ∧
    (ioctlOutcome (sampleEnv 3 (-1)) (-2147483648) (Run.start ())).1 < 0 ∧
    writeLmx2594Regs (sampleEnv 3 (-1)) (-2147483648) (List.replicate 113 0) (Run.start ())
      = none ∧
    ¬ ∃ run : Run Unit,
      writeLmx2594Regs (sampleEnv 3 (-1)) (-2147483648) (List.replicate 113 0) (Run.start ())
        = some (1, run) := by
  refine ⟨by decide, by decide, by decide, by decide, ?_⟩
  rintro ⟨run, h⟩
  have hn : writeLmx2594Regs (sampleEnv 3 (-1)) (-2147483648) (List.replicate 113 0)
      (Run.start ()) = none := by decide
  rw [hn] at h
  exact Option.noConfusion h

/-! ## `clearInt` -/

/-- C6 (as amended): for every `IicNum` from -999999999 up to `INT_MAX`: when the
set-address ioctl on the descriptor of `"/dev/i2c-<decimal IicNum>"` returns a
non-negative result, `clearInt` calls `SC18IS602ClearInt` exactly once with that
descriptor, after the ioctl and before `close`, and returns 0; when the ioctl
returns a negative result it returns 1 and the calls are `open`, `ioctl`,
`printf` only. -/
theorem clearInt_clears_interrupt (env : Env W) (IicNum : Int) (s : Run W)
    (hlo : -999999999 ≤ IicNum) (hhi : IicNum ≤ INT_MAX) :
    (0 ≤ (ioctlOutcome env IicNum s).1 →
      ∃ run : Run W, clearInt env IicNum s = some (0, run) ∧
        run.trace = s.trace ++
          [Call.c_open ("/dev/i2c-" ++ toString IicNum) env.O_RDWR (openOutcome env IicNum s).1,
           Call.c_ioctl (openOutcome env IicNum s).1 env.I2C_SLAVE_FORCE env.I2C_SPI_ADDR
             (ioctlOutcome env IicNum s).1,
           Call.SC18IS602ClearInt (openOutcome env IicNum s).1,
           Call.c_close (openOutcome env IicNum s).1]) ∧
    ((ioctlOutcome env IicNum s).1 < 0 →
      ∃ run : Run W, clearInt env IicNum s = some (1, run) ∧
        run.trace = s.trace ++
          [Call.c_open ("/dev/i2c-" ++ toString IicNum) env.O_RDWR (openOutcome env IicNum s).1,
           Call.c_ioctl (openOutcome env IicNum s).1 env.I2C_SLAVE_FORCE env.I2C_SPI_ADDR
             (ioctlOutcome env IicNum s).1,
           Call.c_printf "Error: Could not set address \n"]) := by
  constructor
  · intro hio
    refine ⟨_, clearInt_ioctl_ok env IicNum s hlo hhi hio, ?_⟩
    rw [← devPath_eq_toString]
  · intro hio
    refine ⟨_, clearInt_ioctl_failed env IicNum s hlo hhi hio, ?_⟩
    rw [← devPath_eq_toString]

/-- Instances of C6 at `IicNum = INT_MAX`: the ioctl answering 0, then -1. -/
theorem clearInt_clears_interrupt_witness :
    (-999999999 : Int) ≤ 2147483647 ∧ (2147483647 : Int) ≤ INT_MAX ∧
    0 ≤ (ioctlOutcome (sampleEnv 5 0) 2147483647 (Run.start ())).1 ∧
    (∃ run : Run Unit, clearInt (sampleEnv 5 0) 2147483647 (Run.start ()) = some (0, run) ∧
      run.trace = [] ++
        [Call.c_open ("/dev/i2c-" ++ toString (2147483647 : Int)) 2 5,
         Call.c_ioctl 5 0x0706 0x2F 0,
         Call.SC18IS602ClearInt 5,
         Call.c_close 5]) ∧
    (ioctlOutcome (sampleEnv 5 (-1)) 2147483647 (Run.start ())).1 < 0 ∧
    (∃ run : Run Unit, clearInt (sampleEnv 5 (-1)) 2147483647 (Run.start ()) = some (1, run) ∧
      run.trace = [] ++
        [Call.c_open ("/dev/i2c-" ++ toString (2147483647 : Int)) 2 5,
         Call.c_ioctl 5 0x0706 0x2F (-1),
         Call.c_printf "Error: Could not set address \n"]) :=
  ⟨by decide, by decide, by decide,
    (clearInt_clears_interrupt (sampleEnv 5 0) 2147483647 (Run.start ())
      (by decide) (by decide)).1 (by decide),
    by decide,
    (clearInt_clears_interrupt (sampleEnv 5 (-1)) 2147483647 (Run.start ())
      (by decide) (by decide)).2 (by decide)⟩

/-- C6 (as stated) fails: at `IicNum = -1000000000` with the ioctl answering 0
the path overruns the buffer and `clearInt` has no result, so it does not
return 0 after calling `SC18IS602ClearInt`. -/
theorem clearInt_clears_interrupt_fails_at_minus_1000000000 :
    INT_MIN ≤ (-1000000000 : Int) ∧ (-1000000000 : Int) ≤ INT_MAX ∧
    0 ≤ (ioctlOutcome (sampleEnv 5 0) (-1000000000) (Run.start ())).1 ∧
    devPathBytes (-1000000000) = 21 ∧
    clearInt (sampleEnv 5 0) (-1000000000) (Run.start ()) = none ∧
    ¬ ∃ run : Run Unit, clearInt (sampleEnv 5 0) (-1000000000) (Run.start ()) = some (0, run) := by
  refine ⟨by decide, by decide, by decide, by decide, by decide, ?_⟩
  rintro ⟨run, h⟩
  have hn : clearInt (sampleEnv 5 0) (-1000000000) (Run.start ()) = none := by decide
  rw [hn] at h
  exact Option.noConfusion h

/-! ## No retry, the buffer bound, and the unchecked result of `open` -/

/-- C7 (as amended): in every environment a single invocation of
`writeLmx2594Regs` or of `clearInt` with `IicNum` from -999999999 up to
`INT_MAX` makes exactly one `open`, exactly one `ioctl` and at most one call of
its delegate; a single invocation of `writeLmk04208Regs` (26 values) or of
`writeLmk04832Regs` (125 values), with any `IicNum`, makes exactly one call of
its delegate. -/
theorem single_invocation_call_counts (env : Env W) (IicNum IicNumLmk : Int)
    (RegVals RegVals26 RegVals125 : List Nat) (s : Run W)
    (hlo : -999999999 ≤ IicNum) (hhi : IicNum ≤ INT_MAX)
    (h26 : RegVals26.length = 26) (h125 : RegVals125.length = 125) :
    (∃ (ret : Int) (run : Run W) (calls : List Call),
      writeLmx2594Regs env IicNum RegVals s = some (ret, run) ∧
      run.trace = s.trace ++ calls ∧
      calls.countP Call.isOpen = 1 ∧ calls.countP Call.isIoctl = 1 ∧
      calls.countP Call.isLmx2594Updatei2c ≤ 1) ∧
    (∃ (ret : Int) (run : Run W) (calls : List Call),
      clearInt env IicNum s = some (ret, run) ∧
      run.trace = s.trace ++ calls ∧
      calls.countP Call.isOpen = 1 ∧ calls.countP Call.isIoctl = 1 ∧
      calls.countP Call.isSC18IS602ClearInt ≤ 1) ∧
    (∃ (ret : Int) (run : Run W) (calls : List Call),
      writeLmk04208Regs env IicNumLmk RegVals26 s = some (ret, run) ∧
      run.trace = s.trace ++ calls ∧
      calls.countP Call.isLMK04208ClockConfig = 1) ∧
    (∃ (ret : Int) (run : Run W) (calls : List Call),
      writeLmk04832Regs env IicNumLmk RegVals125 s = some (ret, run) ∧
      run.trace = s.trace ++ calls ∧
      calls.countP Call.isLMK04832ClockConfig = 1) := by
  refine ⟨?_, ?_, ?_, ?_⟩
  · by_cases hio : (ioctlOutcome env IicNum s).1 < 0
    · exact ⟨1, _, _, writeLmx2594Regs_ioctl_failed env IicNum RegVals s hlo hhi hio, rfl,
        by simp [Call.isOpen], by simp [Call.isIoctl], by simp [Call.isLmx2594Updatei2c]⟩
    · exact ⟨0, _, _, writeLmx2594Regs_ioctl_ok env IicNum RegVals s hlo hhi (by omega), rfl,
        by simp [Call.isOpen], by simp [Call.isIoctl], by simp [Call.isLmx2594Updatei2c]⟩
  · by_cases hio : (ioctlOutcome env IicNum s).1 < 0
    · exact ⟨1, _, _, clearInt_ioctl_failed env IicNum s hlo hhi hio, rfl,
        by simp [Call.isOpen], by simp [Call.isIoctl], by simp [Call.isSC18IS602ClearInt]⟩
    · exact ⟨0, _, _, clearInt_ioctl_ok env IicNum s hlo hhi (by omega), rfl,
        by simp [Call.isOpen], by simp [Call.isIoctl], by simp [Call.isSC18IS602ClearInt]⟩
  · exact ⟨0, _, _, writeLmk04208Regs_eq env IicNumLmk RegVals26 s h26, rfl,
      by simp [Call.isLMK04208ClockConfig]⟩
  · exact ⟨0, _, _, writeLmk04832Regs_eq env IicNumLmk RegVals125 s h125, rfl,
      by simp [Call.isLMK04832ClockConfig]⟩

/-- Instance of C7 with `open` and the ioctl both answering -1. -/
theorem single_invocation_call_counts_witness :
    (-999999999 : Int) ≤ 0 ∧ (0 : Int) ≤ INT_MAX ∧
    (List.range 26).length = 26 ∧ (List.range 125).length = 125 ∧
    (∃ (ret : Int) (run : Run Unit) (calls : List Call),
      writeLmx2594Regs (sampleEnv (-1) (-1)) 0 (List.range 113) (Run.start ())
        = some (ret, run) ∧
      run.trace = [] ++ calls ∧
      calls.countP Call.isOpen = 1 ∧ calls.countP Call.isIoctl = 1 ∧
      calls.countP Call.isLmx2594Updatei2c ≤ 1) ∧
    (∃ (ret : Int) (run : Run Unit) (calls : List Call),
      clearInt (sampleEnv (-1) (-1)) 0 (Run.start ()) = some (ret, run) ∧
      run.trace = [] ++ calls ∧
      calls.countP Call.isOpen = 1 ∧ calls.countP Call.isIoctl = 1 ∧
      calls.countP Call.isSC18IS602ClearInt ≤ 1) ∧
    (∃ (ret : Int) (run : Run Unit) (calls : List Call),
      writeLmk04208Regs (sampleEnv (-1) (-1)) INT_MIN (List.range 26) (Run.start ())
        = some (ret, run) ∧
      run.trace = [] ++ calls ∧
      calls.countP Call.isLMK04208ClockConfig = 1) ∧
    (∃ (ret : Int) (run : Run Unit) (calls : List Call),
      writeLmk04832Regs (sampleEnv (-1) (-1)) INT_MIN (List.range 125) (Run.start ())
        = some (ret, run) ∧
      run.trace = [] ++ calls ∧
      calls.countP Call.isLMK04832ClockConfig = 1) :=
  ⟨by decide, by decide, List.length_range 26, List.length_range 125,
    single_invocation_call_counts (sampleEnv (-1) (-1)) 0 INT_MIN (List.range 113)
      (List.range 26) (List.range 125) (Run.start ()) (by decide) (by decide)
      (List.length_range 26) (List.length_range 125)⟩

/-- C7 (as stated) fails: at `IicNum = -2000000000` the path overruns the buffer
and neither `writeLmx2594Regs` nor `clearInt` has a result, so there is no run
with exactly one `open` and exactly one `ioctl`. -/
theorem single_invocation_call_counts_fails_at_minus_2000000000 :
    INT_MIN ≤ (-2000000000 : Int) ∧ (-2000000000 : Int) ≤ INT_MAX ∧
    writeLmx2594Regs (sampleEnv 3 0) (-2000000000) (List.replicate 113 0) (Run.start ())
      = none ∧
    clearInt (sampleEnv 3 0) (-2000000000) (Run.start ()) = none ∧
    ¬ ∃ (ret : Int) (run : Run Unit),
      clearInt (sampleEnv 3 0) (-2000000000) (Run.start ()) = some (ret, run) ∧
      run.trace.countP Call.isOpen = 1 := by
  refine ⟨by decide, by decide, by decide, by decide, ?_⟩
  rintro ⟨ret, run, h, _⟩
  have hn : clearInt (sampleEnv 3 0) (-2000000000) (Run.start ()) = none := by decide
  rw [hn] at h
  exact Option.noConfusion h

/-- C8: for every 32-bit signed `IicNum`, the characters of `"/dev/i2c-"`
followed by the decimal rendering of `IicNum`, plus the terminating byte, are at
most 20 bytes if and only if `IicNum >= -999999999`; they fit for every
non-negative `IicNum` and take exactly 21 bytes for every
`IicNum <= -1000000000`.  The 20-byte `sprintf` of both wrappers is within the
buffer in exactly the first case. -/
theorem devPath_fits_buffer_iff (IicNum : Int) (hmin : INT_MIN ≤ IicNum)
    (hmax : IicNum ≤ INT_MAX) :
    devPath IicNum = "/dev/i2c-" ++ toString IicNum ∧
    (devPathBytes IicNum ≤ 20 ↔ -999999999 ≤ IicNum) ∧
    (0 ≤ IicNum → devPathBytes IicNum ≤ 20) ∧
    (IicNum ≤ -1000000000 → devPathBytes IicNum = 21) ∧
    ((sprintf_devPath 20 IicNum).isSome ↔ -999999999 ≤ IicNum) := by
  have hbig : IicNum ≤ -1000000000 → devPathBytes IicNum = 21 := by
    intro h
    rw [devPathBytes_eq, fmt_d_length_big_neg IicNum hmin h]
  have hfit : -999999999 ≤ IicNum → devPathBytes IicNum ≤ 20 := by
    intro h
    have := sprintf_devPath_fits IicNum h hmax
    unfold sprintf_devPath at this
    by_contra hc
    rw [if_neg hc] at this
    exact Option.noConfusion this
  refine ⟨devPath_eq_toString IicNum, ?_, ?_, hbig, ?_⟩
  · constructor
    · intro h
      by_contra hc
      have := hbig (by omega)
      omega
    · exact hfit
  · intro h
    exact hfit (by omega)
  · constructor
    · intro h
      by_contra hc
      rw [sprintf_devPath_overrun IicNum hmin (by omega)] at h
      exact absurd h (by decide)
    · intro h
      rw [sprintf_devPath_fits IicNum h hmax]
      rfl

/-- Instances of C8 at `IicNum = -1000000000` (21 bytes) and at `INT_MAX`
(20 bytes). -/
theorem devPath_fits_buffer_iff_witness :
    INT_MIN ≤ (-1000000000 : Int) ∧ (-1000000000 : Int) ≤ INT_MAX ∧
    devPath (-1000000000) = "/dev/i2c-" ++ toString (-1000000000 : Int) ∧
    (devPathBytes (-1000000000) ≤ 20 ↔ (-999999999 : Int) ≤ -1000000000) ∧
    devPathBytes (-1000000000) = 21 ∧
    ((sprintf_devPath 20 (-1000000000)).isSome ↔ (-999999999 : Int) ≤ -1000000000) ∧
    INT_MIN ≤ (2147483647 : Int) ∧ (2147483647 : Int) ≤ INT_MAX ∧
    devPathBytes 2147483647 ≤ 20 :=
  ⟨by decide, by decide,
    (devPath_fits_buffer_iff (-1000000000) (by decide) (by decide)).1,
    (devPath_fits_buffer_iff (-1000000000) (by decide) (by decide)).2.1,
    (devPath_fits_buffer_iff (-1000000000) (by decide) (by decide)).2.2.2.1 (by decide),
    (devPath_fits_buffer_iff (-1000000000) (by decide) (by decide)).2.2.2.2,
    by decide, by decide,
    (devPath_fits_buffer_iff 2147483647 (by decide) (by decide)).2.2.1 (by decide)⟩

/-- C9 (as amended): the result of `open` is never checked.  For every `IicNum`
from -999999999 up to `INT_MAX`, two runs of `writeLmx2594Regs` (or of
`clearInt`) whose ioctl results are equal return the same value and call the
delegate the same number of times, whatever their `open` results are; and when
`open` yields a negative descriptor while the ioctl yields a non-negative
result, the delegate is called with that negative descriptor, which is then
passed to `close`, and the operation returns 0. -/
theorem open_result_never_checked (env1 env2 : Env W) (IicNum : Int)
    (RegVals1 RegVals2 : List Nat) (s1 s2 : Run W)
    (hlo : -999999999 ≤ IicNum) (hhi : IicNum ≤ INT_MAX) :
    ((ioctlOutcome env1 IicNum s1).1 = (ioctlOutcome env2 IicNum s2).1 →
      ∃ (ret : Int) (run1 run2 : Run W) (calls1 calls2 : List Call),
        writeLmx2594Regs env1 IicNum RegVals1 s1 = some (ret, run1) ∧
        writeLmx2594Regs env2 IicNum RegVals2 s2 = some (ret, run2) ∧
        run1.trace = s1.trace ++ calls1 ∧ run2.trace = s2.trace ++ calls2 ∧
        calls1.countP Call.isLmx2594Updatei2c = calls2.countP Call.isLmx2594Updatei2c) ∧
    ((ioctlOutcome env1 IicNum s1).1 = (ioctlOutcome env2 IicNum s2).1 →
      ∃ (ret : Int) (run1 run2 : Run W) (calls1 calls2 : List Call),
        clearInt env1 IicNum s1 = some (ret, run1) ∧
        clearInt env2 IicNum s2 = some (ret, run2) ∧
        run1.trace = s1.trace ++ calls1 ∧ run2.trace = s2.trace ++ calls2 ∧
        calls1.countP Call.isSC18IS602ClearInt = calls2.countP Call.isSC18IS602ClearInt) ∧
    ((openOutcome env1 IicNum s1).1 < 0 → 0 ≤ (ioctlOutcome env1 IicNum s1).1 →
      ∃ run : Run W, writeLmx2594Regs env1 IicNum RegVals1 s1 = some (0, run) ∧
        run.trace = s1.trace ++
          [Call.c_open (devPath IicNum) env1.O_RDWR (openOutcome env1 IicNum s1).1,
           Call.c_ioctl (openOutcome env1 IicNum s1).1 env1.I2C_SLAVE_FORCE env1.I2C_SPI_ADDR
             (ioctlOutcome env1 IicNum s1).1,
           Call.Lmx2594Updatei2c (openOutcome env1 IicNum s1).1 RegVals1,
           Call.c_close (openOutcome env1 IicNum s1).1]) ∧
    ((openOutcome env1 IicNum s1).1 < 0 → 0 ≤ (ioctlOutcome env1 IicNum s1).1 →
      ∃ run : Run W, clearInt env1 IicNum s1 = some (0, run) ∧
        run.trace = s1.trace ++
          [Call.c_open (devPath IicNum) env1.O_RDWR (openOutcome env1 IicNum s1).1,
           Call.c_ioctl (openOutcome env1 IicNum s1).1 env1.I2C_SLAVE_FORCE env1.I2C_SPI_ADDR
             (ioctlOutcome env1 IicNum s1).1,
           Call.SC18IS602ClearInt (openOutcome env1 IicNum s1).1,
           Call.c_close (openOutcome env1 IicNum s1).1]) := by
  refine ⟨?_, ?_, ?_, ?_⟩
  · intro hsame
    by_cases hio : (ioctlOutcome env1 IicNum s1).1 < 0
    · exact ⟨1, _, _, _, _,
        writeLmx2594Regs_ioctl_failed env1 IicNum RegVals1 s1 hlo hhi hio,
        writeLmx2594Regs_ioctl_failed env2 IicNum RegVals2 s2 hlo hhi (hsame ▸ hio),
        rfl, rfl, by simp [Call.isLmx2594Updatei2c]⟩
    · exact ⟨0, _, _, _, _,
        writeLmx2594Regs_ioctl_ok env1 IicNum RegVals1 s1 hlo hhi (by omega),
        writeLmx2594Regs_ioctl_ok env2 IicNum RegVals2 s2 hlo hhi (by omega),
        rfl, rfl, by simp [Call.isLmx2594Updatei2c]⟩
  · intro hsame
    by_cases hio : (ioctlOutcome env1 IicNum s1).1 < 0
    · exact ⟨1, _, _, _, _,
        clearInt_ioctl_failed env1 IicNum s1 hlo hhi hio,
        clearInt_ioctl_failed env2 IicNum s2 hlo hhi (hsame ▸ hio),
        rfl, rfl, by simp [Call.isSC18IS602ClearInt]⟩
    · exact ⟨0, _, _, _, _,
        clearInt_ioctl_ok env1 IicNum s1 hlo hhi (by omega),
        clearInt_ioctl_ok env2 IicNum s2 hlo hhi (by omega),
        rfl, rfl, by simp [Call.isSC18IS602ClearInt]⟩
  · intro _ hio
    exact ⟨_, writeLmx2594Regs_ioctl_ok env1 IicNum RegVals1 s1 hlo hhi hio, rfl⟩
  · intro _ hio
    exact ⟨_, clearInt_ioctl_ok env1 IicNum s1 hlo hhi hio, rfl⟩

/-- Instance of C9 at `IicNum = 1`: a run whose `open` answers -1 beside a run
whose `open` answers 3, the ioctl answering 0 in both. -/
theorem open_result_never_checked_witness :
    (-999999999 : Int) ≤ 1 ∧ (1 : Int) ≤ INT_MAX ∧
    (ioctlOutcome (sampleEnv (-1) 0) 1 (Run.start ())).1
      = (ioctlOutcome (sampleEnv 3 0) 1 (Run.start ())).1 ∧
    (openOutcome (sampleEnv (-1) 0) 1 (Run.start ())).1 < 0 ∧
    0 ≤ (ioctlOutcome (sampleEnv (-1) 0) 1 (Run.start ())).1 ∧
    (∃ (ret : Int) (run1 run2 : Run Unit) (calls1 calls2 : List Call),
      writeLmx2594Regs (sampleEnv (-1) 0) 1 (List.range 113) (Run.start ()) = some (ret, run1) ∧
      writeLmx2594Regs (sampleEnv 3 0) 1 (List.replicate 113 0) (Run.start ())
        = some (ret, run2) ∧
      run1.trace = [] ++ calls1 ∧ run2.trace = [] ++ calls2 ∧
      calls1.countP Call.isLmx2594Updatei2c = calls2.countP Call.isLmx2594Updatei2c) ∧
    (∃ (ret : Int) (run1 run2 : Run Unit) (calls1 calls2 : List Call),
      clearInt (sampleEnv (-1) 0) 1 (Run.start ()) = some (ret, run1) ∧
      clearInt (sampleEnv 3 0) 1 (Run.start ()) = some (ret, run2) ∧
      run1.trace = [] ++ calls1 ∧ run2.trace = [] ++ calls2 ∧
      calls1.countP Call.isSC18IS602ClearInt = calls2.countP Call.isSC18IS602ClearInt) ∧
    (∃ run : Run Unit,
      writeLmx2594Regs (sampleEnv (-1) 0) 1 (List.range 113) (Run.start ()) = some (0, run) ∧
      run.trace = [] ++
        [Call.c_open (devPath 1) 2 (-1), Call.c_ioctl (-1) 0x0706 0x2F 0,
         Call.Lmx2594Updatei2c (-1) (List.range 113), Call.c_close (-1)]) ∧
    (∃ run : Run Unit, clearInt (sampleEnv (-1) 0) 1 (Run.start ()) = some (0, run) ∧
      run.trace = [] ++
        [Call.c_open (devPath 1) 2 (-1), Call.c_ioctl (-1) 0x0706 0x2F 0,
         Call.SC18IS602ClearInt (-1), Call.c_close (-1)]) :=
  ⟨by decide, by decide, by decide, by decide, by decide,
    (open_result_never_checked (sampleEnv (-1) 0) (sampleEnv 3 0) 1 (List.range 113)
      (List.replicate 113 0) (Run.start ()) (Run.start ()) (by decide) (by decide)).1
      (by decide),
    (open_result_never_checked (sampleEnv (-1) 0) (sampleEnv 3 0) 1 (List.range 113)
      (List.replicate 113 0) (Run.start ()) (Run.start ()) (by decide) (by decide)).2.1
      (by decide),
    (open_result_never_checked (sampleEnv (-1) 0) (sampleEnv 3 0) 1 (List.range 113)
      (List.replicate 113 0) (Run.start ()) (Run.start ()) (by decide) (by decide)).2.2.1
      (by decide) (by decide),
    (open_result_never_checked (sampleEnv (-1) 0) (sampleEnv 3 0) 1 (List.range 113)
      (List.replicate 113 0) (Run.start ()) (Run.start ()) (by decide) (by decide)).2.2.2
      (by decide) (by decide)⟩

/-- C9 (as stated) fails: at `IicNum = -1500000000`, with `open` answering -1
and the ioctl answering 0, the path overruns the buffer and neither operation
has a result, so the delegate is not called and 0 is not returned. -/
theorem open_result_never_checked_fails_at_minus_1500000000 :
    INT_MIN ≤ (-1500000000 : Int) ∧ (-1500000000 : Int) ≤ INT_MAX ∧
    (openOutcome (sampleEnv (-1) 0) (-1500000000) (Run.start ())).1 < 0 ∧
    0 ≤ (ioctlOutcome (sampleEnv (-1) 0) (-1500000000) (Run.start ())).1 ∧
    writeLmx2594Regs (sampleEnv (-1) 0) (-1500000000) (List.replicate 113 0) (Run.start ())
      = none ∧
    clearInt (sampleEnv (-1) 0) (-1500000000) (Run.start ()) = none ∧
    ¬ ∃ run : Run Unit,
      writeLmx2594Regs (sampleEnv (-1) 0) (-1500000000) (List.replicate 113 0) (Run.start ())
        = some (0, run) := by
  refine ⟨by decide, by decide, by decide, by decide, by decide, by decide, ?_⟩
  rintro ⟨run, h⟩
  have hn : writeLmx2594Regs (sampleEnv (-1) 0) (-1500000000) (List.replicate 113 0)
      (Run.start ()) = none := by decide
  rw [hn] at h
  exact Option.noConfusion h

end XrfdcClk
